import Mathlib

/-!
Shallow embedding of the PerfCollector remote performance-trace collector
(src/devlib/trace/perf.py).  Remote-target interactions are modelled as an
explicit event trace; the remote target itself (listing results, installed
binary, abi, path resolution) is an oracle structure.  Python strings are
Lean strings; Python truthiness of arguments is folded into explicit case
analysis noted at each definition.
-/

/-- A remote-target interaction issued by the collector. -/
inductive Event where
  | execute (cmd : String)
  | background (cmd : String) (asRoot : Bool)
  | killall (name : String) (signal : Option String) (asRoot : Bool)
  | remove (path : String)
  | uninstall (name : String)
  | getInstalled (name : String)
  | install (hostPath : String)
  | getPids (name : String)
deriving DecidableEq

/-- The exceptions the embedded code can raise.  perf.py raises only
ValueError (no lifecycle-state exception exists anywhere in the file). -/
inductive PyError where
  | valueError (msg : String)
deriving DecidableEq

/-- The events constructor argument: absent, a single string, or a list. -/
inductive EventsArg where
  | noneE
  | str (s : String)
  | list (l : List String)
deriving DecidableEq

/-- The optionstring constructor argument: absent, a single string, or a
list (list entries may themselves be absent, matching Python None). -/
inductive OptsArg where
  | noneO
  | str (s : String)
  | list (l : List (Option String))
deriving DecidableEq

/-- Oracle for the remote target: directory listing lines, result of the
installed-binary query, abi string, writable-path resolution, the remote
path produced by installing a host binary, and root status. -/
structure Target where
  lsOut : List String
  installed : Option String
  abi : String
  workpath : String → String
  installPath : String → String
  rooted : Bool

def PERF_DEFAULT_EVENTS : List String :=
  ["cpu-migrations", "context-switches"]

def SIMPLEPERF_DEFAULT_EVENTS : List String :=
  ["raw-cpu-cycles", "raw-l1-dcache", "raw-l1-dcache-refill",
   "raw-br-mis-pred", "raw-instruction-retired"]

/-- The DEFAULT_EVENTS dictionary, keyed by perf type.  The final arm is
unreachable: every lookup site runs after perf-type validation. -/
def DEFAULT_EVENTS (perf_type : String) : List String :=
  if perf_type = "perf" then PERF_DEFAULT_EVENTS
  else if perf_type = "simpleperf" then SIMPLEPERF_DEFAULT_EVENTS
  else []

/-- Modelled from the spec: the host-side bundled-binary directory is
defined in devlib.host, outside src/; its concrete value affects no claim. -/
def PACKAGE_BIN_DIRECTORY : String := "devlib/bin"

/-- Python `x or ''` applied to an optional string argument. -/
def pyOr (o : Option String) : String := o.getD ""

/-- Python `' '.join`. -/
def joinSpace : List String → String
  | [] => ""
  | [s] => s
  | s :: ss => s ++ (" " ++ joinSpace ss)

/-- The event flags: one `-e` flag per event, joined by single spaces. -/
def event_string (events : List String) : String :=
  joinSpace (events.map (fun e => "-e " ++ e))

/-- get_workpath applied to label.extension. -/
def get_target_file (wp : String → String) (label extension : String) : String :=
  wp (label ++ "." ++ extension)

/-- PERF_COMMAND_TEMPLATE with its fields substituted: binary, command,
options, events, then a redirect of stdout and stderr to the out file,
with a trailing space. -/
def format_perf_command (binary command options events outfile : String) : String :=
  binary ++ " " ++ command ++ " " ++ options ++ " " ++ events ++ " > " ++ outfile ++ " 2>&1 "

/-- PERF_RECORD_COMMAND_TEMPLATE with its fields substituted: binary, the
record subcommand, options, events, and the data file named via -o.  The
template contains no redirect. -/
def format_perf_record_command (binary options events outfile : String) : String :=
  binary ++ " record " ++ options ++ " " ++ events ++ " -o " ++ outfile

/-- PERF_REPORT_COMMAND_TEMPLATE with its fields substituted. -/
def format_perf_report_command (binary options datafile outfile : String) : String :=
  binary ++ " report " ++ options ++ " -i " ++ datafile ++ " > " ++ outfile ++ " 2>&1 "

/-- PERF_REPORT_SAMPLES_COMMAND_TEMPLATE with its fields substituted. -/
def format_perf_report_samples_command (binary options datafile outfile : String) : String :=
  binary ++ " report-sample " ++ options ++ " -i " ++ datafile ++ " > " ++ outfile ++ " 2>&1 "

/-- _build_perf_stat_command. -/
def build_perf_stat_command (binary command : String) (options : Option String)
    (events : List String) (label : String) (wp : String → String) : String :=
  format_perf_command binary command (pyOr options) (event_string events)
    (get_target_file wp label "out")

/-- _build_perf_record_command. -/
def build_perf_record_command (binary : String) (options : Option String)
    (events : List String) (label : String) (wp : String → String) : String :=
  format_perf_record_command binary (pyOr options) (event_string events)
    (get_target_file wp label "data")

/-- _build_perf_report_command. -/
def build_perf_report_command (binary : String) (report_options : Option String)
    (label : String) (wp : String → String) : String :=
  format_perf_report_command binary (pyOr report_options)
    (get_target_file wp label "data") (get_target_file wp label "rpt")

/-- _build_perf_report_samples_command. -/
def build_perf_report_samples_command (binary : String) (report_options : Option String)
    (label : String) (wp : String → String) : String :=
  format_perf_report_samples_command binary (pyOr report_options)
    (get_target_file wp label "data") (get_target_file wp label "rptsamples")

/-- The auto-generated labels: perf_ followed by the zero-based index, one
per option string.  The prefix is the literal string perf_ for both perf
types. -/
def autoLabels (n : Nat) : List String :=
  (List.range n).map (fun i => "perf_" ++ toString i)

/-- Event resolution from __init__: a falsy events argument (absent, the
empty string, or the empty list) selects the default table for the perf
type; a non-empty single string is wrapped into a one-element list. -/
def resolve_events (perf_type : String) (events : EventsArg) : List String :=
  match events with
  | EventsArg.noneE => DEFAULT_EVENTS perf_type
  | EventsArg.str s => if s = "" then DEFAULT_EVENTS perf_type else [s]
  | EventsArg.list l => if l = [] then DEFAULT_EVENTS perf_type else l

/-- The cd-and-ls command executed to list the remote working directory. -/
def ls_command (wp : String → String) : String :=
  "cd " ++ wp "" ++ " && ls"

/-- _is_simpleperf_file_busy: some listing line equals the perf type name. -/
def is_simpleperf_file_busy (t : Target) (perf_type : String) : Bool :=
  t.lsOut.any (fun file => file = perf_type)

/-- Binary resolution from __init__ (lines 124-130): if the busy file is
present, rm it and uninstall the tool, then query the installed binary and
deploy the host binary when the query is falsy or install is forced.  No
kill of a running tool instance occurs on this path.  Modelled from the
spec: Target.uninstall (outside src/) removes the installed binary, so the
query performed after it reports not installed. -/
def resolve_binary (t : Target) (perf_type : String) (force_install : Bool) :
    List Event × String :=
  let busy := is_simpleperf_file_busy t perf_type
  let busyEv := [Event.execute (ls_command t.workpath)]
  let preEv :=
    if busy then
      [Event.execute ("rm " ++ t.workpath perf_type), Event.uninstall perf_type]
    else []
  let installed0 : Option String := if busy then none else t.installed
  let queryEv := [Event.getInstalled perf_type]
  let falsy := match installed0 with
    | none => true
    | some s => decide (s = "")
  if force_install || falsy then
    let host := PACKAGE_BIN_DIRECTORY ++ "/" ++ t.abi ++ "/" ++ perf_type
    (busyEv ++ preEv ++ queryEv ++ [Event.install host], t.installPath host)
  else
    (busyEv ++ preEv ++ queryEv, installed0.getD "")

/-- _build_commands: zip option strings with labels and build the stat or
record command for each pair. -/
def build_commands (binary command : String) (events : List String)
    (optionstrings : List (Option String)) (labels : List String)
    (wp : String → String) : List String :=
  (optionstrings.zip labels).map (fun p =>
    if command = "stat" then
      build_perf_stat_command binary command p.1 events p.2 wp
    else
      build_perf_record_command binary p.1 events p.2 wp)

/-- The constructed collector: the validated configuration, the resolved
binary, the built commands, and the trace of target interactions performed
during construction. -/
structure Collector where
  perf_type : String
  command : String
  events : List String
  optionstrings : List (Option String)
  labels : List String
  report_options : Option String
  force_install : Bool
  binary : String
  commands : List String
  rooted : Bool
  workpath : String → String
  initTrace : List Event

/-- __init__, in source order: normalize optionstring, validate perf type,
resolve events, default absent or empty labels, check the label count,
validate the command, resolve the binary, list the directory, and build
the commands.  A falsy labels argument (absent or the empty list) is
replaced by auto-generated labels before the count check. -/
def construct (t : Target) (perf_type command : String) (events : EventsArg)
    (optionstring : OptsArg) (report_options : Option String)
    (labels : Option (List String)) (force_install : Bool) :
    Except PyError Collector :=
  let optionstrings : List (Option String) :=
    match optionstring with
    | OptsArg.list l => l
    | OptsArg.str s => [some s]
    | OptsArg.noneO => [none]
  if perf_type = "perf" ∨ perf_type = "simpleperf" then
    let events1 := resolve_events perf_type events
    let labels1 :=
      match labels with
      | none => autoLabels optionstrings.length
      | some ls => if ls = [] then autoLabels optionstrings.length else ls
    if labels1.length = optionstrings.length then
      if command = "stat" ∨ command = "record" then
        let rb := resolve_binary t perf_type force_install
        Except.ok
          { perf_type := perf_type
            command := command
            events := events1
            optionstrings := optionstrings
            labels := labels1
            report_options := report_options
            force_install := force_install
            binary := rb.2
            commands := build_commands rb.2 command events1 optionstrings labels1 t.workpath
            rooted := t.rooted
            workpath := t.workpath
            initTrace := rb.1 ++ [Event.execute (ls_command t.workpath)] }
      else Except.error (PyError.valueError "Unsupported perf command, must be stat or record")
    else Except.error (PyError.valueError "The number of labels must match the number of optstrings provided for perf.")
  else Except.error (PyError.valueError ("Invalid perf type: " ++ perf_type ++ ", must be perf or simpleperf"))

/-- Substring containment, Python `pat in s`. -/
def strIn (pat s : String) : Bool := decide (pat.data <:+: s.data)

/-- The deletion condition of reset(): the file name contains .rpt, .data,
.rptsamples, or TemporaryFile as a substring. -/
def should_delete (file : String) : Bool :=
  strIn ".rpt" file || strIn ".data" file || strIn ".rptsamples" file ||
    strIn "TemporaryFile" file

/-- Follows the spec wording of the reset deletion patterns, for comparison
with should_delete: the spec additionally lists the literal out pattern. -/
def spec_reset_pattern (file : String) : Bool :=
  strIn ".rpt" file || strIn ".data" file || strIn ".rptsamples" file ||
    strIn "out" file || strIn "TemporaryFile" file

namespace PerfCollector

/-- reset(): kill the tool by name, list the working directory, remove
every listed file whose name satisfies should_delete, list again. -/
def reset_events (c : Collector) (files : List String) : List Event :=
  Event.killall c.perf_type none c.rooted ::
    Event.execute (ls_command c.workpath) ::
      ((files.flatMap (fun file =>
          if should_delete file then [Event.remove (c.workpath file)] else []))
        ++ [Event.execute (ls_command c.workpath)])

/-- The events issued by one call of start(): background-launch every
built command, then query the simpleperf pids for the debug print. -/
def start_events (c : Collector) : List Event :=
  c.commands.map (fun cmd => Event.background cmd c.rooted) ++
    [Event.getPids "simpleperf"]

/-- start(): launches every command in the background.  The method reads
no lifecycle state and raises nothing; the collector is returned
unchanged. -/
def start (c : Collector) : Except PyError (Collector × List Event) :=
  Except.ok (c, start_events c)

/-- Two consecutive calls of start() on the result of a construction,
returning the combined event trace. -/
def startTwice (r : Except PyError Collector) : Except PyError (List Event) :=
  r.bind (fun c =>
    (start c).bind (fun p =>
      (start p.1).map (fun q => p.2 ++ q.2)))

/-- stop(): query pids for the debug print, interrupt the tool by name
with an explicit SIGINT, kill the sleep processes with no explicit signal,
query pids again. -/
def stop_events (c : Collector) : List Event :=
  [Event.getPids "simpleperf",
   Event.killall c.perf_type (some "SIGINT") c.rooted,
   Event.killall "sleep" none c.rooted,
   Event.getPids "simpleperf"]

end PerfCollector

/-- Modelled from the spec: the default signal of the target killall
capability is not under src/; section 4.4 states the sleep kill delivers
the same interrupt signal as the tool kill. -/
def KILLALL_DEFAULT_SIGNAL : String := "SIGINT"

/-- The signal a killall event delivers: the explicit one, or the target
default when none is passed. -/
def effective_signal (s : Option String) : String :=
  s.getD KILLALL_DEFAULT_SIGNAL

/-- Extract the killall events of a trace as name-signal pairs. -/
def killall_signals (events : List Event) : List (String × String) :=
  events.filterMap (fun e =>
    match e with
    | Event.killall name s _ => some (name, effective_signal s)
    | _ => none)

/-- The retry bound of _wait_for_data_file_write. -/
def MAX_TRIES : Nat := 10000

/-- One execution of the polling loop of _wait_for_data_file_write, with
explicit fuel: at counter value cur, if the listing still contains the
marker and cur has not passed maxTries, sleep and re-poll with cur + 1;
otherwise exit, warning exactly when maxTries has been reached.  The
marker oracle gives the result of the containment test at each poll. -/
def waitAux (marker : Nat → Bool) (maxTries : Nat) : Nat → Nat → Option (Nat × Bool)
  | 0, _ => none
  | fuel+1, cur =>
    if marker cur = true ∧ cur ≤ maxTries then waitAux marker maxTries fuel (cur+1)
    else some (cur, decide (maxTries ≤ cur))

/-- The polling loop with its source bound, run from counter 0 with fuel
that provably suffices (the loop exits by counter maxTries + 1). -/
def waitLoop (marker : Nat → Bool) : Option (Nat × Bool) :=
  waitAux marker MAX_TRIES (MAX_TRIES + 2) 0

/-- The two report executions issued after the wait: the standard report
with the configured report options, then the per-sample report with the
show-callchain option. -/
def report_events (c : Collector) (label : String) : List Event :=
  [Event.execute (build_perf_report_command c.binary c.report_options label c.workpath),
   Event.execute (build_perf_report_samples_command c.binary (some "--show-callchain") label c.workpath)]

/-- _wait_for_data_file_write: run the polling loop, then issue the two
report executions for the label.  Returns the final counter, whether the
warning fired, and the report events. -/
def wait_for_data_file_write (c : Collector) (marker : Nat → Bool) (label : String) :
    Option ((Nat × Bool) × List Event) :=
  (waitLoop marker).map (fun r => (r, report_events c label))

/-- The space character, for the tokenizer. -/
def spaceChar : Char := Char.ofNat 32

/-- The shell output-redirect character. -/
def gtChar : Char := Char.ofNat 62

/-- Split a character list into maximal space-free words, accumulator
form; empty words are dropped. -/
def wordsAux : List Char → List Char → List (List Char)
  | [], acc => if acc = [] then [] else [acc.reverse]
  | c :: cs, acc =>
    if c = spaceChar then (if acc = [] then [] else [acc.reverse]) ++ wordsAux cs []
    else wordsAux cs (c :: acc)

/-- The space-separated tokens of a string. -/
def tokens (s : String) : List String :=
  (wordsAux s.data []).map (fun w => String.mk w)

/-- The arguments attached to -e flags in a token list, in order. -/
def dashEArgs : List String → List String
  | [] => []
  | [t] => if t = "-e" then [] else []
  | t :: a :: rest =>
    if t = "-e" then a :: dashEArgs rest
    else dashEArgs (a :: rest)

/-- Whether an event is a killall. -/
def isKillEv : Event → Bool
  | Event.killall _ _ _ => true
  | _ => false

/-- Whether an event is a background launch. -/
def isBackgroundEv : Event → Bool
  | Event.background _ _ => true
  | _ => false

/-- Whether an event is a file removal. -/
def isRemoveEv : Event → Bool
  | Event.remove _ => true
  | _ => false

/-- A concrete quiet target: no busy file, tool already installed. -/
def cexTarget : Target :=
  { lsOut := ["foo.txt"]
    installed := some "/data/local/tmp/bin/perf"
    abi := "arm64"
    workpath := fun s => "/data/local/tmp/" ++ s
    installPath := fun s => "/installed/" ++ s
    rooted := true }

/-- A concrete target whose working directory holds a stale simpleperf
file. -/
def cexBusyTarget : Target :=
  { lsOut := ["simpleperf", "foo.txt"]
    installed := some "/data/local/tmp/bin/simpleperf"
    abi := "arm64"
    workpath := fun s => "/data/local/tmp/" ++ s
    installPath := fun s => "/installed/" ++ s
    rooted := true }

/-- A concrete collector for the claims quantified over a collector. -/
def cexCollector : Collector :=
  { perf_type := "perf"
    command := "record"
    events := ["cpu-migrations"]
    optionstrings := [none]
    labels := ["perf_0"]
    report_options := none
    force_install := false
    binary := "/data/local/tmp/bin/perf"
    commands := []
    rooted := true
    workpath := fun s => "/data/local/tmp/" ++ s
    initTrace := [] }

/-- With the marker present at every poll, the loop runs until the counter
passes the bound: it exits at counter maxTries + 1 with the warning set. -/
theorem waitAux_always (marker : Nat → Bool) (maxTries : Nat)
    (h : ∀ i, marker i = true) :
    ∀ fuel cur, cur ≤ maxTries + 1 → maxTries + 2 ≤ cur + fuel →
      waitAux marker maxTries fuel cur = some (maxTries + 1, true) := by
  intro fuel
  induction fuel with
  | zero => intro cur h1 h2; exfalso; omega
  | succ n ih =>
    intro cur h1 h2
    by_cases hc : cur ≤ maxTries
    · simp only [waitAux]
      rw [if_pos ⟨h cur, hc⟩]
      exact ih (cur + 1) (by omega) (by omega)
    · have hcur : cur = maxTries + 1 := by omega
      simp only [waitAux]
      rw [if_neg (fun hp => hc hp.2), hcur]
      have : decide (maxTries ≤ maxTries + 1) = true := by simp
      rw [this]

/-- If the marker is absent at some poll index below the bound, the loop
exits at the first such index, below the bound, with no warning. -/
theorem waitAux_disappears (marker : Nat → Bool) (maxTries i0 : Nat)
    (hm : marker i0 = false) (hi : i0 < maxTries) :
    ∀ fuel cur, cur ≤ i0 → i0 + 1 ≤ cur + fuel →
      ∃ j, j ≤ i0 ∧ waitAux marker maxTries fuel cur = some (j, false) := by
  intro fuel
  induction fuel with
  | zero => intro cur h1 h2; exfalso; omega
  | succ n ih =>
    intro cur h1 h2
    by_cases hc : marker cur = true ∧ cur ≤ maxTries
    · have hne : cur ≠ i0 := by
        intro he
        rw [he, hm] at hc
        exact Bool.false_ne_true hc.1
      obtain ⟨j, hj, heq⟩ := ih (cur + 1) (by omega) (by omega)
      refine ⟨j, hj, ?_⟩
      simp only [waitAux]
      rw [if_pos hc]
      exact heq
    · refine ⟨cur, h1, ?_⟩
      simp only [waitAux]
      rw [if_neg hc]
      have : decide (maxTries ≤ cur) = false := by
        simp only [decide_eq_false_iff_not]
        omega
      rw [this]

/-- C2 (amended): for every label in record mode, if the directory listing
drops the transient-marker substring at some poll with the counter below
the bound, the wait exits with the counter below the bound and no warning;
if every listing contains the marker, the wait exits when the counter
first exceeds the bound, i.e. with the counter at the bound plus one, and
logs the warning; in every case the operation returns without raising and
issues the two report-generation executions for that label. -/
theorem wait_for_data_file_write_behavior (c : Collector) (marker : Nat → Bool)
    (label : String) :
    ((∃ i, i < MAX_TRIES ∧ marker i = false) →
      ∃ j, j < MAX_TRIES ∧
        wait_for_data_file_write c marker label = some ((j, false), report_events c label))
    ∧ ((∀ i, marker i = true) →
      wait_for_data_file_write c marker label =
        some ((MAX_TRIES + 1, true), report_events c label))
    ∧ (∀ r, wait_for_data_file_write c marker label = some r →
        r.2 = report_events c label) := by
  refine ⟨?_, ?_, ?_⟩
  · rintro ⟨i, hi, hm⟩
    obtain ⟨j, hj, heq⟩ :=
      waitAux_disappears marker MAX_TRIES i hm hi (MAX_TRIES + 2) 0 (by omega) (by omega)
    refine ⟨j, by omega, ?_⟩
    simp only [wait_for_data_file_write, waitLoop, heq, Option.map_some']
  · intro h
    have heq := waitAux_always marker MAX_TRIES h (MAX_TRIES + 2) 0 (by omega) (by omega)
    simp only [wait_for_data_file_write, waitLoop, heq, Option.map_some']
  · intro r hr
    rcases Option.map_eq_some'.mp hr with ⟨v, _, hv⟩
    rw [← hv]

/-- C2 witness: a collector and a marker oracle that never clears. -/
theorem wait_for_data_file_write_behavior_witness :
    wait_for_data_file_write cexCollector (fun _ => true) "perf_0" =
      some ((MAX_TRIES + 1, true), report_events cexCollector "perf_0") :=
  (wait_for_data_file_write_behavior cexCollector (fun _ => true) "perf_0").2.1
    (fun _ => rfl)

/-- C2 counterexample: with the marker present at every poll the loop
exits with the counter at 10001, one past the fixed bound 10000: it does
not exit when the counter reaches the bound. -/
theorem wait_loop_exit_counter_exceeds_bound :
    waitLoop (fun _ => true) = some (10001, true) ∧ (10001 : Nat) ≠ MAX_TRIES := by
  constructor
  · have h := waitAux_always (fun _ => true) MAX_TRIES (fun _ => rfl)
      (MAX_TRIES + 2) 0 (by omega) (by omega)
    rw [waitLoop, h]
    rfl
  · decide

/-- C3: stop() delivers an interrupt to every process matching the tool
name, passing SIGINT explicitly, and additionally kills every remote sleep
process; the sleep kill passes no explicit signal and so delivers the
target default, modelled from the spec as the same interrupt signal. -/
theorem stop_signals_sigint_tool_and_sleep (c : Collector) :
    killall_signals (PerfCollector.stop_events c) =
      [(c.perf_type, "SIGINT"), ("sleep", "SIGINT")] := rfl

/-- Membership in a one-element conditional list. -/
theorem mem_if_singleton {α : Type} (a x : α) (p : Prop) [Decidable p] :
    (a ∈ (if p then [x] else ([] : List α))) ↔ (p ∧ a = x) := by
  by_cases h : p <;> simp [h]

/-- The deletion test of reset, unfolded to its four substring conditions. -/
theorem should_delete_iff (g : String) :
    should_delete g = true ↔
      ((".rpt" : String).data <:+: g.data ∨ (".data" : String).data <:+: g.data ∨
        (".rptsamples" : String).data <:+: g.data ∨
        ("TemporaryFile" : String).data <:+: g.data) := by
  simp [should_delete, strIn, Bool.or_eq_true, decide_eq_true_eq, or_assoc]

/-- C1 (amended): reset() issues a removal for exactly those listed file
names containing .rpt, .data, .rptsamples, or the transient-marker
substring TemporaryFile; the literal out pattern is not among the deletion
patterns, and files matching none of the four patterns are untouched. -/
theorem reset_remove_iff (c : Collector) (files : List String) (f : String) :
    (Event.remove (c.workpath f) ∈ PerfCollector.reset_events c files) ↔
      ∃ g, g ∈ files ∧
        ((".rpt" : String).data <:+: g.data ∨ (".data" : String).data <:+: g.data ∨
          (".rptsamples" : String).data <:+: g.data ∨
          ("TemporaryFile" : String).data <:+: g.data) ∧
        c.workpath g = c.workpath f := by
  simp only [PerfCollector.reset_events, List.mem_cons, List.mem_append,
    List.mem_flatMap, List.mem_singleton, mem_if_singleton, should_delete_iff,
    Event.remove.injEq]
  constructor
  · rintro (h | h | ⟨g, hg, hpat, heq⟩ | h)
    · exact absurd h (by simp)
    · exact absurd h (by simp)
    · exact ⟨g, hg, hpat, heq.symm⟩
    · exact absurd h (by simp)
  · rintro ⟨g, hg, hpat, heq⟩
    exact Or.inr (Or.inr (Or.inl ⟨g, hg, hpat, heq.symm⟩))

/-- C1 counterexample: the stat-mode output file perf_0.out matches the
literal out pattern listed by the claim, yet reset() issues no removal for
a listing holding exactly that file. -/
theorem reset_out_file_not_removed :
    spec_reset_pattern "perf_0.out" = true ∧ should_delete "perf_0.out" = false ∧
      (PerfCollector.reset_events cexCollector ["perf_0.out"]).countP isRemoveEv = 0 := by
  refine ⟨by decide, by decide, by decide⟩

/-- C4 (amended): start() reads no lifecycle state and can never raise: a
second call on the collector returned by the first succeeds and launches
every built command over again, one background launch per command. -/
theorem start_twice_relaunches (c : Collector) :
    PerfCollector.startTwice (Except.ok c) =
        Except.ok (PerfCollector.start_events c ++ PerfCollector.start_events c)
      ∧ (PerfCollector.start_events c).countP isBackgroundEv = c.commands.length := by
  constructor
  · rfl
  · simp [PerfCollector.start_events, List.countP_append, List.countP_map,
      isBackgroundEv, List.countP_true, Function.comp]

/-- C4 counterexample: on a concretely constructed collector, two
consecutive start() calls both succeed, issuing a background launch of the
single built command each time; no lifecycle exception exists and none is
raised. -/
theorem second_start_no_error :
    (PerfCollector.startTwice
        (construct cexTarget "perf" "stat" EventsArg.noneE OptsArg.noneO none none false)).toOption.map
      (fun evs => evs.countP isBackgroundEv) = some 2 := by
  decide


/-- Appending strings appends their character lists. -/
theorem str_data_append (a b : String) : (a ++ b).data = a.data ++ b.data := by
  cases a
  cases b
  rfl

/-- String append is associative. -/
theorem str_assoc (a b c : String) : (a ++ b) ++ c = a ++ (b ++ c) := by
  cases a
  cases b
  cases c
  show String.mk _ = String.mk _
  rw [List.append_assoc]

/-- The single-space string is the space character. -/
theorem space_data : (" " : String).data = [spaceChar] := by decide

/-- The word splitter distributes over a space separator. -/
theorem wordsAux_append_space (ys : List Char) :
    ∀ xs acc, wordsAux (xs ++ spaceChar :: ys) acc = wordsAux xs acc ++ wordsAux ys [] := by
  intro xs
  induction xs with
  | nil =>
    intro acc
    rw [List.nil_append]
    simp [wordsAux]
  | cons c cs ih =>
    intro acc
    rw [List.cons_append]
    by_cases hc : c = spaceChar
    · simp only [wordsAux, if_pos hc, ih, List.append_assoc]
    · simp only [wordsAux, if_neg hc, ih]

/-- The tokenizer splits at a space-separated concatenation. -/
theorem tokens_sep (a b : String) : tokens (a ++ (" " ++ b)) = tokens a ++ tokens b := by
  unfold tokens
  have h : (a ++ (" " ++ b)).data = a.data ++ (spaceChar :: b.data) := by
    rw [str_data_append, str_data_append, space_data]
    rfl
  rw [h, wordsAux_append_space, List.map_append]

/-- An event flag tokenizes into the flag and its single-token argument. -/
theorem tokens_dashE (e : String) (he : tokens e = [e]) :
    tokens ("-e " ++ e) = ["-e", e] := by
  rw [show ("-e " ++ e : String) = "-e" ++ (" " ++ e) from by
      rw [show ("-e " : String) = "-e" ++ " " from rfl, str_assoc],
    tokens_sep, he, show tokens "-e" = ["-e"] from by decide]
  rfl

/-- The events segment tokenizes into one flag-argument pair per event,
in order, when each event is itself a single token. -/
theorem tokens_event_string (events : List String) (h : ∀ e ∈ events, tokens e = [e]) :
    tokens (event_string events) = events.flatMap (fun e => ["-e", e]) := by
  induction events with
  | nil => decide
  | cons e es ih =>
    cases es with
    | nil =>
      show tokens ("-e " ++ e) = ["-e", e] ++ []
      rw [tokens_dashE e (h e (by simp)), List.append_nil]
    | cons e2 es2 =>
      have hj : event_string (e :: e2 :: es2) =
          ("-e " ++ e) ++ (" " ++ event_string (e2 :: es2)) := rfl
      rw [hj, tokens_sep, tokens_dashE e (h e (by simp)),
        ih (fun x hx => h x (by simp [hx]))]
      rfl

/-- A non-flag head token is skipped by the flag-argument extraction. -/
theorem dashEArgs_cons_ne (t : String) (L : List String) (ht : t ≠ "-e") :
    dashEArgs (t :: L) = dashEArgs L := by
  cases L <;> simp [dashEArgs, ht]

/-- Tokens left of the flags contribute no flag argument when the flag
token does not occur among them. -/
theorem dashEArgs_append_not_mem (xs ys : List String) (h : ("-e" : String) ∉ xs) :
    dashEArgs (xs ++ ys) = dashEArgs ys := by
  induction xs with
  | nil => rfl
  | cons t ts ih =>
    have ht : t ≠ "-e" := fun he => h (by simp [he])
    rw [List.cons_append, dashEArgs_cons_ne t _ ht]
    exact ih (fun hm => h (by simp [hm]))

/-- The flag arguments of the rendered event pairs are exactly the
events, in order. -/
theorem dashEArgs_flatMap (events ys : List String) :
    dashEArgs ((events.flatMap (fun e => ["-e", e])) ++ ys) = events ++ dashEArgs ys := by
  induction events with
  | nil => rfl
  | cons e es ih =>
    simp only [List.flatMap_cons, List.cons_append, List.append_assoc]
    simp [dashEArgs, ih]

/-- A token list without the flag token yields no flag arguments. -/
theorem dashEArgs_nil_of_not_mem (ys : List String) (h : ("-e" : String) ∉ ys) :
    dashEArgs ys = [] := by
  have := dashEArgs_append_not_mem ys [] h
  simpa using this

/-- The tokens of a rendered stat-template command: the binary tokens, the
subcommand tokens, the option tokens, the event tokens, the redirect
token, the output-file tokens, and the stderr-merge token. -/
theorem format_perf_command_tokens (binary command options events outfile : String) :
    tokens (format_perf_command binary command options events outfile) =
      tokens binary ++ (tokens command ++ (tokens options ++ (tokens events ++
        ([">"] ++ (tokens outfile ++ ["2>&1"]))))) := by
  have hnorm : format_perf_command binary command options events outfile =
      binary ++ (" " ++ (command ++ (" " ++ (options ++ (" " ++ (events ++ (" " ++
        (">" ++ (" " ++ (outfile ++ (" " ++ "2>&1 "))))))))))) := by
    unfold format_perf_command
    simp only [show (" > " : String) = " " ++ (">" ++ " ") from rfl,
      show (" 2>&1 " : String) = " " ++ "2>&1 " from rfl, str_assoc]
  rw [hnorm, tokens_sep, tokens_sep, tokens_sep, tokens_sep, tokens_sep, tokens_sep,
    show tokens ">" = [">"] from by decide,
    show tokens "2>&1 " = ["2>&1"] from by decide]

/-- C7 (amended): whenever each configured event is a single space-free
token and neither the binary path, the options string, nor the output path
contributes a -e token of its own, the built stat command carries exactly
one -e flag-argument pair per configured event, in event-list order, and
the command ends with the redirect clause sending output to label.out. -/
theorem stat_command_event_tokens_and_redirect (binary : String) (options : Option String)
    (events : List String) (label : String) (wp : String → String)
    (h1 : ∀ e ∈ events, tokens e = [e])
    (h2 : ("-e" : String) ∉ tokens binary)
    (h3 : ("-e" : String) ∉ tokens (pyOr options))
    (h4 : ("-e" : String) ∉ tokens (get_target_file wp label "out")) :
    dashEArgs (tokens (build_perf_stat_command binary "stat" options events label wp)) = events
    ∧ ∃ p, build_perf_stat_command binary "stat" options events label wp =
        p ++ (" > " ++ (get_target_file wp label "out" ++ " 2>&1 ")) := by
  constructor
  · rw [build_perf_stat_command, format_perf_command_tokens,
      tokens_event_string events h1, dashEArgs_append_not_mem _ _ h2,
      dashEArgs_append_not_mem _ _
        (by rw [show tokens "stat" = ["stat"] from by decide]; decide),
      dashEArgs_append_not_mem _ _ h3, dashEArgs_flatMap,
      dashEArgs_nil_of_not_mem _ ?_, List.append_nil]
    intro hm
    rcases List.mem_append.mp hm with hm | hm
    · exact absurd hm (by decide)
    rcases List.mem_append.mp hm with hm | hm
    · exact h4 hm
    · exact absurd hm (by decide)
  · refine ⟨binary ++ (" " ++ ("stat" ++ (" " ++ (pyOr options ++ (" " ++ event_string events))))), ?_⟩
    unfold build_perf_stat_command format_perf_command
    simp only [str_assoc]

/-- C7 witness: default events, no options, a concrete path namer. -/
theorem stat_command_event_tokens_and_redirect_witness :
    dashEArgs (tokens (build_perf_stat_command "/bin/perf" "stat" none
        ["cpu-migrations", "context-switches"] "perf_0" (fun s => "/w/" ++ s))) =
      ["cpu-migrations", "context-switches"] :=
  (stat_command_event_tokens_and_redirect "/bin/perf" none
      ["cpu-migrations", "context-switches"] "perf_0" (fun s => "/w/" ++ s)
      (by decide) (by decide) (by decide) (by decide)).1

/-- C7 counterexample: the constructor accepts the option string
-e cpu-migrations together with the event list holding cpu-migrations, and
the built stat command then carries two -e cpu-migrations pairs for the
single configured event. -/
theorem stat_command_duplicate_event_token :
    (construct cexTarget "perf" "stat" (EventsArg.list ["cpu-migrations"])
        (OptsArg.str "-e cpu-migrations") none none false).toOption.map
      (fun c => c.commands.map (fun cmd => dashEArgs (tokens cmd))) =
        some [["cpu-migrations", "cpu-migrations"]]
    ∧ (construct cexTarget "perf" "stat" (EventsArg.list ["cpu-migrations"])
        (OptsArg.str "-e cpu-migrations") none none false).toOption.map
      (fun c => c.events) = some ["cpu-migrations"] := by
  refine ⟨by decide, by decide⟩

/-- Character membership across a string concatenation. -/
theorem mem_data_append (ch : Char) (a b : String) :
    ch ∈ (a ++ b).data ↔ ch ∈ a.data ∨ ch ∈ b.data := by
  rw [str_data_append, List.mem_append]

/-- The rendered events segment contains no redirect character when no
event does. -/
theorem gt_not_mem_event_string (events : List String)
    (h : ∀ e ∈ events, gtChar ∉ e.data) :
    gtChar ∉ (event_string events).data := by
  induction events with
  | nil => decide
  | cons e es ih =>
    cases es with
    | nil =>
      intro hm
      rcases (mem_data_append _ _ _).mp hm with hm | hm
      · exact absurd hm (by decide)
      · exact h e (by simp) hm
    | cons e2 es2 =>
      intro hm
      have hj : event_string (e :: e2 :: es2) =
          ("-e " ++ e) ++ (" " ++ event_string (e2 :: es2)) := rfl
      rw [hj] at hm
      rcases (mem_data_append _ _ _).mp hm with hm | hm
      · rcases (mem_data_append _ _ _).mp hm with hm | hm
        · exact absurd hm (by decide)
        · exact h e (by simp) hm
      · rcases (mem_data_append _ _ _).mp hm with hm | hm
        · exact absurd hm (by decide)
        · exact ih (fun x hx => h x (by simp [hx])) hm

/-- C8 (amended): the record template introduces no redirect: whenever
neither the binary path, the options string, the events, nor the output
path contains the redirect character, the built record command contains
none, and the command names its output file only through the trailing -o
argument. -/
theorem record_command_no_redirect_token (binary : String) (options : Option String)
    (events : List String) (label : String) (wp : String → String)
    (h1 : gtChar ∉ binary.data) (h2 : gtChar ∉ (pyOr options).data)
    (h3 : ∀ e ∈ events, gtChar ∉ e.data)
    (h4 : gtChar ∉ (get_target_file wp label "data").data) :
    gtChar ∉ (build_perf_record_command binary options events label wp).data
    ∧ ∃ p, build_perf_record_command binary options events label wp =
        p ++ (" -o " ++ get_target_file wp label "data") := by
  constructor
  · unfold build_perf_record_command format_perf_record_command
    intro hm
    simp only [mem_data_append, or_assoc] at hm
    rcases hm with h | h | h | h | h | h | h
    · exact h1 h
    · exact absurd h (by decide)
    · exact h2 h
    · exact absurd h (by decide)
    · exact gt_not_mem_event_string events h3 h
    · exact absurd h (by decide)
    · exact h4 h
  · refine ⟨binary ++ (" record " ++ (pyOr options ++ (" " ++ event_string events))), ?_⟩
    unfold build_perf_record_command format_perf_record_command
    simp only [str_assoc]

/-- C8 witness: a concrete record-mode configuration with clean inputs. -/
theorem record_command_no_redirect_token_witness :
    gtChar ∉ (build_perf_record_command "/bin/simpleperf" (some "-a")
        ["raw-cpu-cycles"] "perf_0" (fun s => "/w/" ++ s)).data :=
  (record_command_no_redirect_token "/bin/simpleperf" (some "-a")
      ["raw-cpu-cycles"] "perf_0" (fun s => "/w/" ++ s)
      (by decide) (by decide) (by decide) (by decide)).1

/-- C8 counterexample: the constructor accepts the option string holding a
bare redirect character in record mode, and the built record command then
contains a redirect token. -/
theorem record_command_redirect_via_options :
    (construct cexTarget "perf" "record" EventsArg.noneE (OptsArg.str ">") none none
        false).toOption.map
      (fun c => c.commands.map (fun cmd => cmd.data.any (fun ch => ch = gtChar))) =
        some [true] := by
  decide

/-- C6 (amended): binary resolution at construction: (a) when a file named
like the tool sits in the remote working directory, that file is removed
with rm, the tool is uninstalled (forcing redeployment), no kill of a
running tool instance is issued, and after the unconditional
installed-binary query the host binary matching the target abi is pushed
and its path recorded; (b) when no such file exists, the query result is
used, and the host binary is pushed exactly when the query is falsy or
reinstall is forced. -/
theorem resolve_binary_characterization (t : Target) (pt : String) (force : Bool)
    (b : String) :
    (is_simpleperf_file_busy t pt = true →
      resolve_binary t pt force =
        ([Event.execute (ls_command t.workpath),
          Event.execute ("rm " ++ t.workpath pt), Event.uninstall pt,
          Event.getInstalled pt,
          Event.install (PACKAGE_BIN_DIRECTORY ++ "/" ++ t.abi ++ "/" ++ pt)],
         t.installPath (PACKAGE_BIN_DIRECTORY ++ "/" ++ t.abi ++ "/" ++ pt)))
    ∧ (is_simpleperf_file_busy t pt = false →
        (force = true ∨ t.installed = none ∨ t.installed = some "") →
      resolve_binary t pt force =
        ([Event.execute (ls_command t.workpath), Event.getInstalled pt,
          Event.install (PACKAGE_BIN_DIRECTORY ++ "/" ++ t.abi ++ "/" ++ pt)],
         t.installPath (PACKAGE_BIN_DIRECTORY ++ "/" ++ t.abi ++ "/" ++ pt)))
    ∧ (is_simpleperf_file_busy t pt = false → force = false →
        t.installed = some b → b ≠ "" →
      resolve_binary t pt force =
        ([Event.execute (ls_command t.workpath), Event.getInstalled pt], b)) := by
  refine ⟨?_, ?_, ?_⟩
  · intro hb
    simp [resolve_binary, hb]
  · intro hb hc
    rcases hc with hf | hi | hi
    · simp [resolve_binary, hb, hf]
    · simp [resolve_binary, hb, hi]
    · simp [resolve_binary, hb, hi]
  · intro hb hf hi hbne
    simp [resolve_binary, hb, hf, hi, hbne]

/-- C6 witness: the busy branch on a concrete target. -/
theorem resolve_binary_characterization_witness :
    is_simpleperf_file_busy cexBusyTarget "simpleperf" = true ∧
      resolve_binary cexBusyTarget "simpleperf" false =
        ([Event.execute (ls_command cexBusyTarget.workpath),
          Event.execute ("rm " ++ cexBusyTarget.workpath "simpleperf"),
          Event.uninstall "simpleperf",
          Event.getInstalled "simpleperf",
          Event.install (PACKAGE_BIN_DIRECTORY ++ "/" ++ cexBusyTarget.abi ++ "/" ++ "simpleperf")],
         cexBusyTarget.installPath
           (PACKAGE_BIN_DIRECTORY ++ "/" ++ cexBusyTarget.abi ++ "/" ++ "simpleperf")) :=
  ⟨by decide,
    (resolve_binary_characterization cexBusyTarget "simpleperf" false "x").1 (by decide)⟩

/-- C6 counterexample: on a target whose working directory holds a stale
simpleperf file, the whole construction trace contains no kill event,
although the claim requires one on that path. -/
theorem busy_path_issues_no_kill :
    is_simpleperf_file_busy cexBusyTarget "simpleperf" = true ∧
      (construct cexBusyTarget "simpleperf" "stat" EventsArg.noneE OptsArg.noneO none none
          false).toOption.map (fun c => c.initTrace.countP isKillEv) = some 0 := by
  refine ⟨by decide, by decide⟩

/-- C5 (amended): when the labels argument is absent, every successful
construction auto-generates one label per option variant built from the
literal prefix perf_ and the zero-based index, for both tool variants; the
prefix is not derived from the configured tool variant name. -/
theorem auto_labels_perf_indexed (t : Target) (pt cmd : String) (ev : EventsArg)
    (opts : OptsArg) (ropts : Option String) (force : Bool) :
    (construct t pt cmd ev opts ropts none force).toOption.map (fun c => c.labels) =
      (construct t pt cmd ev opts ropts none force).toOption.map
        (fun c => (List.range c.optionstrings.length).map (fun i => "perf_" ++ toString i)) := by
  simp only [construct]
  split
  · split
    · split
      · rfl
      · rfl
    · rfl
  · rfl

/-- C5 counterexample: with perf type simpleperf and labels absent, the
auto-generated label is perf_0, not simpleperf_0. -/
theorem simpleperf_auto_label_literal_perf :
    (construct cexTarget "simpleperf" "stat" EventsArg.noneE OptsArg.noneO none none
        false).toOption.map (fun c => c.labels) = some ["perf_0"]
    ∧ ("perf_0" : String) ≠ "simpleperf_0" := by
  refine ⟨by decide, by decide⟩

/-- build_commands builds one command per option string when the label
count matches. -/
theorem build_commands_length (binary cmd : String) (events : List String)
    (os : List (Option String)) (ls1 : List String) (wp : String → String)
    (h : ls1.length = os.length) :
    (build_commands binary cmd events os ls1 wp).length = os.length := by
  simp [build_commands, List.length_zip, h]

/-- C9 (amended): an explicitly supplied non-empty labels sequence whose
length differs from the number of option variants makes construction raise
the label-count ValueError (the spec's configuration error); an explicitly
supplied empty labels sequence is falsy and is replaced by auto-generated
labels instead.  Every successful construction builds exactly one command
per option variant. -/
theorem label_count_mismatch_and_command_count (t : Target) (pt cmd : String)
    (ev : EventsArg) (opts : OptsArg) (ropts : Option String) (ls : List String)
    (force : Bool)
    (hpt : pt = "perf" ∨ pt = "simpleperf") (hne : ls ≠ [])
    (hlen : ls.length ≠ (match opts with
      | OptsArg.list l => l
      | OptsArg.str s => [some s]
      | OptsArg.noneO => [none]).length) :
    construct t pt cmd ev opts ropts (some ls) force =
      Except.error (PyError.valueError
        "The number of labels must match the number of optstrings provided for perf.")
    ∧ ∀ (lbls : Option (List String)) (c : Collector),
        construct t pt cmd ev opts ropts lbls force = Except.ok c →
        c.commands.length = c.optionstrings.length := by
  constructor
  · simp only [construct]
    rw [if_pos hpt, if_neg hne, if_neg hlen]
  · intro lbls c h
    simp only [construct] at h
    repeat' split at h
    all_goals try exact Except.noConfusion h
    all_goals
      cases h
      apply build_commands_length
      simp_all

/-- C9 witness: one label against two option variants. -/
theorem label_count_mismatch_and_command_count_witness :
    construct cexTarget "perf" "stat" EventsArg.noneE (OptsArg.list [some "-a", some "-b"])
        none (some ["one"]) false =
      Except.error (PyError.valueError
        "The number of labels must match the number of optstrings provided for perf.") :=
  (label_count_mismatch_and_command_count cexTarget "perf" "stat" EventsArg.noneE
      (OptsArg.list [some "-a", some "-b"]) none ["one"] false
      (Or.inl rfl) (by decide) (by decide)).1

/-- C9 counterexample: an explicitly supplied empty labels list together
with two option variants has mismatched lengths yet construction succeeds,
because the empty list is falsy and auto-generated labels replace it. -/
theorem empty_labels_mismatch_accepted :
    ((construct cexTarget "perf" "stat" EventsArg.noneE (OptsArg.list [some "-a", some "-b"])
        none (some []) false).toOption.map (fun c => c.labels) = some ["perf_0", "perf_1"])
    ∧ (List.length ([] : List String) ≠ 2) := by
  refine ⟨by decide, by decide⟩

/-- For a valid perf type the resolved event list is never empty: both
default tables are non-empty and the non-default branches keep a non-empty
value. -/
theorem resolve_events_ne_nil (pt : String) (ev : EventsArg)
    (h : pt = "perf" ∨ pt = "simpleperf") : resolve_events pt ev ≠ [] := by
  have hne : DEFAULT_EVENTS pt ≠ [] := by
    rcases h with h | h <;>
      simp [h, DEFAULT_EVENTS, PERF_DEFAULT_EVENTS, SIMPLEPERF_DEFAULT_EVENTS]
  cases ev with
  | noneE => exact hne
  | str s =>
    by_cases hs : s = ""
    · simpa [resolve_events, hs] using hne
    · simp [resolve_events, hs]
  | list l =>
    by_cases hl : l = []
    · simpa [resolve_events, hl] using hne
    · simp [resolve_events, hl]

/-- C10: every successful construction stores a non-empty event list: a
falsy events argument (absent, the empty string, or the empty list) is
replaced by the fixed default table of the selected perf type, and a
non-empty single string is wrapped into a one-element list. -/
theorem events_resolution_nonempty (t : Target) (pt cmd : String) (ev : EventsArg)
    (opts : OptsArg) (ropts : Option String) (lbls : Option (List String)) (force : Bool)
    (s : String) :
    ((construct t pt cmd ev opts ropts lbls force).toOption.map
        (fun c => decide (c.events = [])) ≠ some true)
    ∧ ((ev = EventsArg.noneE ∨ ev = EventsArg.str "" ∨ ev = EventsArg.list []) →
        (construct t pt cmd ev opts ropts lbls force).toOption.map (fun c => c.events) =
          (construct t pt cmd ev opts ropts lbls force).toOption.map
            (fun _ => DEFAULT_EVENTS pt))
    ∧ (ev = EventsArg.str s → s ≠ "" →
        (construct t pt cmd ev opts ropts lbls force).toOption.map (fun c => c.events) =
          (construct t pt cmd ev opts ropts lbls force).toOption.map (fun _ => [s])) := by
  refine ⟨?_, ?_, ?_⟩
  · simp only [construct]
    split
    next hpt =>
      split
      · split
        · simp [Except.toOption, resolve_events_ne_nil pt ev hpt]
        · simp [Except.toOption]
      · simp [Except.toOption]
    next hpt => simp [Except.toOption]
  · intro hev
    simp only [construct]
    split
    · split
      · split
        · rcases hev with hev | hev | hev <;> subst hev <;>
            simp [Except.toOption, resolve_events]
        · rfl
      · rfl
    · rfl
  · intro hev hs
    subst hev
    simp only [construct]
    split
    · split
      · split
        · simp [Except.toOption, resolve_events, hs]
        · rfl
      · rfl
    · rfl

/-- C10 witness: a non-empty single-string events argument is wrapped. -/
theorem events_resolution_nonempty_witness :
    ("cycles" : String) ≠ "" ∧
      (construct cexTarget "perf" "stat" (EventsArg.str "cycles") OptsArg.noneO none none
          false).toOption.map (fun c => c.events) =
        (construct cexTarget "perf" "stat" (EventsArg.str "cycles") OptsArg.noneO none none
            false).toOption.map (fun _ => ["cycles"]) :=
  ⟨by decide,
    (events_resolution_nonempty cexTarget "perf" "stat" (EventsArg.str "cycles")
        OptsArg.noneO none none false "cycles").2.2 rfl (by decide)⟩
